import Mathlib

/-!
Verification of the billing administration panel (finance panel) of this
repository: invoice status rules, monthly invoice calculation with GST,
payment recording, overdue reminder classification, usage aggregation and
the reporting summaries.  Pure frontend computations are embedded from the
React sources; backend operations whose Python sources are not part of the
repository snapshot are modelled from the specification, as marked in their
doc comments.
-/

namespace FinancePanel

/-- A usage log entry, as posted to `POST /api/usage-logs` and rendered by
the usage-tracking page: customer reference, service key, count, period. -/
structure UsageLog where
  customer_id : String
  service : String
  count : Nat
  year : Nat
  month : Nat
deriving DecidableEq, Repr

/-- `aggregateUsage` from the usage-tracking page: folds over the usage
logs, summing `count` into a per-service-key accumulator object
(`aggregated[log.service] = (aggregated[log.service] || 0) + log.count`).
The JS object is embedded as a total function from service key to count,
initially everywhere 0. -/
def aggregateUsage (usageLogs : List UsageLog) : String → Nat :=
  usageLogs.foldl
    (fun aggregated log => fun s =>
      if s = log.service then aggregated s + log.count else aggregated s)
    (fun _ => 0)

/-- A subscription record as used by the subscriptions page:
`mrr` is the monthly recurring revenue of the plan, `status` one of
`active`, `cancelled`, `expired`. -/
structure Subscription where
  subscription_id : String
  customer_id : String
  plan_name : String
  mrr : ℚ
  status : String

/-- `totalMRR` from the subscriptions page:
`subscriptions.filter(s => s.status === "active").reduce((sum, s) => sum + s.mrr, 0)`. -/
def totalMRR (subscriptions : List Subscription) : ℚ :=
  (subscriptions.filter (fun s => s.status = "active")).foldl
    (fun sum s => sum + s.mrr) 0

/-- The analytics overview consumed by the reports page. -/
structure Analytics where
  net_profit : ℚ
  total_revenue : ℚ
  total_expenses : ℚ

/-- JavaScript `Number.prototype.toFixed(1)` on a nonnegative rational:
rounding to one decimal place, half away from zero (which agrees with
half-up for the nonnegative values displayed). -/
def toFixed1 (q : ℚ) : ℚ := (round (q * 10) : ℤ) / 10

/-- `profitMargin` from the reports page:
`analytics?.total_revenue > 0 ? ((analytics.net_profit / analytics.total_revenue) * 100).toFixed(1) : 0`.
An absent analytics object (`analytics === null`) makes the optional
chaining yield `undefined`, `undefined > 0` is false, so the margin is 0. -/
def profitMargin (analytics : Option Analytics) : ℚ :=
  match analytics with
  | none => 0
  | some a =>
      if a.total_revenue > 0 then toFixed1 (a.net_profit / a.total_revenue * 100)
      else 0

/-- An invoice as listed on the invoice-management page: `amount` is the
invoice total, `paid_amount` may be absent on manually created invoices
(`inv.paid_amount || 0` in the source), `status` is a string. -/
structure AdminInvoice where
  invoice_id : String
  customer_id : String
  amount : ℚ
  paid_amount : Option ℚ
  status : String

/-- `totalReceivable` from the invoice-management page:
`invoices.filter(inv => inv.status !== "paid").reduce((sum, inv) => sum + (inv.amount - (inv.paid_amount || 0)), 0)`. -/
def totalReceivable (invoices : List AdminInvoice) : ℚ :=
  (invoices.filter (fun inv => inv.status ≠ "paid")).foldl
    (fun sum inv => sum + (inv.amount - inv.paid_amount.getD 0)) 0

/-- `totalPaid` ("Total Collected") from the invoice-management page:
`invoices.filter(inv => inv.status === "paid").reduce((sum, inv) => sum + inv.amount, 0)`. -/
def totalPaid (invoices : List AdminInvoice) : ℚ :=
  (invoices.filter (fun inv => inv.status = "paid")).foldl
    (fun sum inv => sum + inv.amount) 0

/-- The status options offered by the manual create-invoice form on the
invoices page (`<option>` values of the status `<select>`): the admin may
freely choose any of them when creating an invoice. -/
def createInvoiceStatusOptions : List String := ["pending", "paid", "overdue"]

/-- `getStatusColor` from the invoice-management page: maps an invoice
status string to its badge CSS classes; note the explicit `overdue` case. -/
def getStatusColor (status : String) : String :=
  if status = "paid" then "bg-green-100 text-green-700"
  else if status = "partially_paid" then "bg-yellow-100 text-yellow-700"
  else if status = "pending" then "bg-blue-100 text-blue-700"
  else if status = "overdue" then "bg-red-100 text-red-700"
  else "bg-slate-100 text-slate-700"

/-- Errors of the billing backend, per the error-handling design. -/
inductive BillingError where
  | MissingRateError (service : String)
  | InvalidAmountError
  | DuplicateInvoiceError
  | NotFoundError
deriving DecidableEq, Repr

/-- Modelled from the spec: the backend status recomputation (the backend
`server.py` is not part of the repository snapshot; only its frontend
callers and documentation are).  `paid_amount >= total` gives `paid`,
`0 < paid < total` gives `partially_paid`, otherwise `pending`. -/
def recomputeStatus (paid_amount total_amount : ℚ) : String :=
  if total_amount ≤ paid_amount then "paid"
  else if 0 < paid_amount then "partially_paid"
  else "pending"

/-- A payment record embedded in an invoice's history. -/
structure Payment where
  amount : ℚ
  payment_method : String
  payment_reference : String
  notes : String
deriving DecidableEq

/-- A backend-generated invoice: line-item totals, GST, running paid
amount, payment history and the billing period. -/
structure Invoice where
  invoice_id : String
  customer_id : String
  amount : ℚ
  subtotal : ℚ
  tax_amount : ℚ
  status : String
  paid_amount : ℚ
  payments : List Payment
  year : Nat
  month : Nat
deriving DecidableEq

/-- A customer as far as the payment ledger is concerned: its
`account_status` is one of `active`, `suspended`, `shutdown`. -/
structure Customer where
  customer_id : String
  account_status : String
deriving DecidableEq

/-- Modelled from the spec: `recordPayment` of the backend payment ledger
(absent from the repository snapshot).  A non-positive amount is rejected
with `InvalidAmountError` before any mutation, so the incoming state is
returned untouched; a positive amount appends one payment record,
increments `paid_amount`, recomputes `status`, and auto-reactivates a
suspended customer whose invoice became fully paid.  Shutdown customers
are never reactivated by a payment. -/
def recordPayment (inv : Invoice) (cust : Customer) (amount : ℚ)
    (method reference notes : String) :
    (Invoice × Customer) × Option BillingError :=
  if amount ≤ 0 then ((inv, cust), some .InvalidAmountError)
  else
    let newPaid := inv.paid_amount + amount
    let newStatus := recomputeStatus newPaid inv.amount
    let inv' := { inv with
      paid_amount := newPaid
      status := newStatus
      payments := inv.payments ++
        [{ amount := amount, payment_method := method,
           payment_reference := reference, notes := notes }] }
    let cust' :=
      if cust.account_status = "suspended" ∧ newStatus = "paid" then
        { cust with account_status := "active" }
      else cust
    ((inv', cust'), none)

/-- The GST rate applied to every invoice subtotal. -/
def taxRate : ℚ := 18 / 100

/-- A line item of a generated invoice. -/
structure LineItem where
  service : String
  type : String
  quantity : Nat
  rate : ℚ
  amount : ℚ
deriving DecidableEq

/-- Rate lookup in a customer's rate card (service key to unit price). -/
def lookupRate (rateCard : List (String × ℚ)) (service : String) : Option ℚ :=
  (rateCard.find? (fun p => p.1 = service)).map (fun p => p.2)

/-- Modelled from the spec: the variable line items of the invoice
calculator (backend `invoice_calculator.py` absent from the snapshot).
Each aggregated usage entry is priced by the rate card; a service with
positive usage but no configured rate aborts with `MissingRateError`,
while zero-usage unpriced services are skipped. -/
def variableLines (rateCard : List (String × ℚ)) :
    List (String × Nat) → Except BillingError (List LineItem)
  | [] => .ok []
  | (s, n) :: rest =>
    match lookupRate rateCard s with
    | some r =>
        match variableLines rateCard rest with
        | .error e => .error e
        | .ok tail =>
            .ok ({ service := s, type := "variable", quantity := n,
                   rate := r, amount := r * n } :: tail)
    | none =>
        if 0 < n then .error (.MissingRateError s)
        else variableLines rateCard rest

/-- Fixed monthly fee line items (platform fee, dedicated support, ...):
one fixed-amount line per configured fee, independent of usage. -/
def fixedLines (fixedFees : List (String × ℚ)) : List LineItem :=
  fixedFees.map (fun f =>
    { service := f.1, type := "fixed", quantity := 1, rate := f.2,
      amount := f.2 })

/-- Modelled from the spec: the invoice calculator (backend
`invoice_calculator.py` absent from the snapshot).  Subtotal is the sum of
all line amounts, tax is subtotal × 18 % on the pre-tax line amounts, and
the invoice total is subtotal + tax; the fresh invoice is `pending` with
no payments. -/
def generateMonthlyInvoice (rateCard : List (String × ℚ))
    (usage : List (String × Nat)) (fixedFees : List (String × ℚ))
    (cid : String) (year month : Nat) : Except BillingError Invoice :=
  match variableLines rateCard usage with
  | .error e => .error e
  | .ok varItems =>
    let items := varItems ++ fixedLines fixedFees
    let subtotal := (items.map (fun i => i.amount)).sum
    let tax := subtotal * taxRate
    .ok { invoice_id := "inv_" ++ cid, customer_id := cid,
          amount := subtotal + tax, subtotal := subtotal, tax_amount := tax,
          status := "pending", paid_amount := 0, payments := [],
          year := year, month := month }

/-- The possible recommended actions of the reminder classifier. -/
inductive ReminderAction where
  | send_reminder_email
  | send_final_reminder
  | suspend_account
  | shutdown_account
deriving DecidableEq, Repr

/-- Modelled from the spec: the overdue classifier of the reminder job
(backend absent from the snapshot).  Whole days overdue (now − due_date)
are mapped to an action by the documented thresholds: ≥ 30 shutdown,
≥ 15 suspend, ≥ 7 final reminder, ≥ 3 reminder email, fewer than 3 none. -/
def classifyOverdue (daysOverdue : ℤ) : Option ReminderAction :=
  if 30 ≤ daysOverdue then some .shutdown_account
  else if 15 ≤ daysOverdue then some .suspend_account
  else if 7 ≤ daysOverdue then some .send_final_reminder
  else if 3 ≤ daysOverdue then some .send_reminder_email
  else none

/-- A recommended action entry produced for one overdue invoice. -/
structure OverdueAction where
  invoice_id : String
  days_overdue : ℤ
  action : ReminderAction
deriving DecidableEq

/-- Modelled from the spec: `checkPendingInvoices` considers only non-paid
invoices and classifies each by its whole days overdue at `now` (due dates
and `now` given as whole-day counts). -/
def checkPendingInvoices (now : ℤ) (invoices : List (Invoice × ℤ)) :
    List OverdueAction :=
  (invoices.filter (fun p => p.1.status ≠ "paid")).filterMap
    (fun p =>
      (classifyOverdue (now - p.2)).map
        (fun a => { invoice_id := p.1.invoice_id,
                    days_overdue := now - p.2, action := a }))

/-- One generate-monthly-invoice request, as replayed against the store. -/
structure GenRequest where
  rateCard : List (String × ℚ)
  usage : List (String × Nat)
  fixedFees : List (String × ℚ)
  cid : String
  year : Nat
  month : Nat

/-- Whether the invoice store already holds an invoice for the given
customer and billing period. -/
def hasInvoiceFor (invoices : List Invoice) (cid : String) (y m : Nat) :
    Bool :=
  invoices.any (fun i =>
    i.customer_id = cid ∧ i.year = y ∧ i.month = m)

/-- Modelled from the spec: invoice generation against the store, with the
recommended duplicate policy — a request for a (customer, period) that is
already invoiced is rejected with `DuplicateInvoiceError` and the store is
left unchanged; otherwise the freshly calculated invoice is appended. -/
def generateMonthlyInvoiceStore (invoices : List Invoice) (req : GenRequest) :
    List Invoice × Option BillingError :=
  if hasInvoiceFor invoices req.cid req.year req.month then
    (invoices, some .DuplicateInvoiceError)
  else
    match generateMonthlyInvoice req.rateCard req.usage req.fixedFees
        req.cid req.year req.month with
    | .ok inv => (invoices ++ [inv], none)
    | .error e => (invoices, some e)

/-- Replay a sequence of generation requests against the store. -/
def runGenerates (invoices : List Invoice) (reqs : List GenRequest) :
    List Invoice :=
  reqs.foldl (fun s r => (generateMonthlyInvoiceStore s r).1) invoices

/-- The store holds at most one invoice per (customer, year, month). -/
def atMostOnePerPeriod (invoices : List Invoice) : Prop :=
  invoices.Pairwise (fun a b =>
    ¬(a.customer_id = b.customer_id ∧ a.year = b.year ∧ a.month = b.month))

/-- Folding addition of `f` over a list starting from `init` is `init`
plus the sum of the mapped list (the shape of every JS `reduce` above). -/
lemma foldl_add_eq_sum {α : Type} (f : α → ℚ) :
    ∀ (l : List α) (init : ℚ),
      l.foldl (fun a x => a + f x) init = init + (l.map f).sum
  | [], init => by simp
  | x :: xs, init => by
      simp [List.foldl_cons, foldl_add_eq_sum f xs, add_assoc]

/-- The usage-aggregation fold, started from an arbitrary accumulator,
adds to it exactly the sum of the counts of the logs for each key. -/
lemma aggregateUsage_foldl (k : String) :
    ∀ (logs : List UsageLog) (acc : String → Nat),
      (logs.foldl
        (fun aggregated log => fun s =>
          if s = log.service then aggregated s + log.count else aggregated s)
        acc) k
      = acc k + ((logs.filter (fun l => l.service = k)).map
          (fun l => l.count)).sum
  | [], acc => by simp
  | log :: rest, acc => by
      rw [List.foldl_cons, aggregateUsage_foldl k rest]
      by_cases hk : log.service = k
      · rw [List.filter_cons_of_pos (by simpa using hk), List.map_cons,
          List.sum_cons, if_pos hk.symm, add_assoc]
      · rw [List.filter_cons_of_neg (by simpa using hk),
          if_neg (fun hkk => hk (Eq.symm hkk))]

/-- C7: the total Monthly Recurring Revenue is the sum of `mrr` over
exactly the subscriptions whose status is `active`; a subscription with
any other status (such as `cancelled` or `expired`) contributes nothing. -/
theorem totalMRR_spec (subs : List Subscription) (s : Subscription)
    (h : s.status ≠ "active") :
    totalMRR subs
      = ((subs.filter (fun x => x.status = "active")).map
          (fun x => x.mrr)).sum
    ∧ totalMRR (s :: subs) = totalMRR subs := by
  constructor
  · rw [totalMRR, foldl_add_eq_sum, zero_add]
  · rw [totalMRR, totalMRR, List.filter_cons_of_neg (by simpa using h)]

theorem totalMRR_spec_witness :
    ({ subscription_id := "s1", customer_id := "c1", plan_name := "Basic",
       mrr := 900, status := "cancelled" } : Subscription).status ≠ "active"
    ∧ totalMRR
        [{ subscription_id := "s1", customer_id := "c1",
           plan_name := "Basic", mrr := 900, status := "cancelled" },
         { subscription_id := "s2", customer_id := "c2",
           plan_name := "Pro", mrr := 1500, status := "active" }]
      = ((([{ subscription_id := "s1", customer_id := "c1",
              plan_name := "Basic", mrr := 900, status := "cancelled" },
            { subscription_id := "s2", customer_id := "c2",
              plan_name := "Pro", mrr := 1500,
              status := "active" }] : List Subscription).filter
          (fun x => x.status = "active")).map (fun x => x.mrr)).sum :=
  ⟨by decide,
   (totalMRR_spec
      [{ subscription_id := "s1", customer_id := "c1", plan_name := "Basic",
         mrr := 900, status := "cancelled" },
       { subscription_id := "s2", customer_id := "c2", plan_name := "Pro",
         mrr := 1500, status := "active" }]
      { subscription_id := "s1", customer_id := "c1", plan_name := "Basic",
        mrr := 900, status := "cancelled" } (by decide)).1⟩

/-- C8: for every list of usage logs, the aggregated usage at a service
key equals the sum of the `count` fields of all logs with that key (logs
for the same key are summed, never overwritten), and the aggregate is
invariant under any permutation of the log list. -/
theorem aggregateUsage_spec (logs logs' : List UsageLog) (k : String)
    (h : logs.Perm logs') :
    aggregateUsage logs k
      = ((logs.filter (fun l => l.service = k)).map (fun l => l.count)).sum
    ∧ aggregateUsage logs' k = aggregateUsage logs k := by
  have key : ∀ ls : List UsageLog,
      aggregateUsage ls k
        = ((ls.filter (fun l => l.service = k)).map (fun l => l.count)).sum := by
    intro ls
    rw [aggregateUsage, aggregateUsage_foldl]
    simp
  refine ⟨key logs, ?_⟩
  rw [key logs, key logs']
  exact ((h.filter _).map _).sum_eq.symm

theorem aggregateUsage_spec_witness :
    ([⟨"c1", "orders", 300, 2025, 1⟩, ⟨"c1", "users", 20, 2025, 1⟩,
      ⟨"c1", "orders", 700, 2025, 1⟩] : List UsageLog).Perm
      [⟨"c1", "orders", 700, 2025, 1⟩, ⟨"c1", "orders", 300, 2025, 1⟩,
       ⟨"c1", "users", 20, 2025, 1⟩]
    ∧ aggregateUsage
        [⟨"c1", "orders", 300, 2025, 1⟩, ⟨"c1", "users", 20, 2025, 1⟩,
         ⟨"c1", "orders", 700, 2025, 1⟩] "orders"
      = ((([⟨"c1", "orders", 300, 2025, 1⟩, ⟨"c1", "users", 20, 2025, 1⟩,
            ⟨"c1", "orders", 700, 2025, 1⟩] : List UsageLog).filter
          (fun l => l.service = "orders")).map (fun l => l.count)).sum :=
  ⟨by decide,
   (aggregateUsage_spec
      [⟨"c1", "orders", 300, 2025, 1⟩, ⟨"c1", "users", 20, 2025, 1⟩,
       ⟨"c1", "orders", 700, 2025, 1⟩]
      [⟨"c1", "orders", 700, 2025, 1⟩, ⟨"c1", "orders", 300, 2025, 1⟩,
       ⟨"c1", "users", 20, 2025, 1⟩] "orders" (by decide)).1⟩

/-- C9: the reports page computes the profit margin as
(net_profit / total_revenue) × 100 to one decimal only when
total_revenue > 0, and yields 0 when total_revenue is zero or the
analytics object is absent, so it never divides by zero. -/
theorem profitMargin_spec (a : Analytics) (h : 0 < a.total_revenue) :
    profitMargin (some a) = toFixed1 (a.net_profit / a.total_revenue * 100)
    ∧ profitMargin none = 0
    ∧ ∀ b : Analytics, b.total_revenue = 0 → profitMargin (some b) = 0 := by
  refine ⟨?_, rfl, ?_⟩
  · rw [profitMargin, if_pos h]
  · intro b hb
    rw [profitMargin, if_neg (by rw [hb]; exact lt_irrefl 0)]

theorem profitMargin_spec_witness :
    (0 : ℚ) < ({ net_profit := 50, total_revenue := 200,
                 total_expenses := 150 } : Analytics).total_revenue
    ∧ profitMargin
        (some { net_profit := 50, total_revenue := 200,
                total_expenses := 150 })
      = toFixed1 (((50 : ℚ) / 200) * 100) :=
  ⟨by norm_num,
   (profitMargin_spec
      { net_profit := 50, total_revenue := 200, total_expenses := 150 }
      (by norm_num)).1⟩

/-- C10: Total Receivable is the sum over invoices with status other than
`paid` of amount minus paid_amount (missing paid_amount counting as 0),
and Total Collected is the sum of amount over invoices with status
`paid`; hence a partially paid invoice contributes exactly its remaining
balance to the former and nothing to the latter. -/
theorem totalReceivable_totalPaid_spec (invs : List AdminInvoice)
    (i : AdminInvoice) (h : i.status = "partially_paid") :
    totalReceivable invs
      = ((invs.filter (fun x => x.status ≠ "paid")).map
          (fun x => x.amount - x.paid_amount.getD 0)).sum
    ∧ totalPaid invs
      = ((invs.filter (fun x => x.status = "paid")).map
          (fun x => x.amount)).sum
    ∧ totalReceivable (i :: invs)
        = (i.amount - i.paid_amount.getD 0) + totalReceivable invs
    ∧ totalPaid (i :: invs) = totalPaid invs := by
  have hne : i.status ≠ "paid" := by rw [h]; decide
  have recv : ∀ l : List AdminInvoice,
      totalReceivable l
        = ((l.filter (fun x => x.status ≠ "paid")).map
            (fun x => x.amount - x.paid_amount.getD 0)).sum := by
    intro l
    rw [totalReceivable, foldl_add_eq_sum, zero_add]
  have paid : ∀ l : List AdminInvoice,
      totalPaid l
        = ((l.filter (fun x => x.status = "paid")).map
            (fun x => x.amount)).sum := by
    intro l
    rw [totalPaid, foldl_add_eq_sum, zero_add]
  refine ⟨recv invs, paid invs, ?_, ?_⟩
  · rw [recv (i :: invs), recv invs,
      List.filter_cons_of_pos (by simpa using hne), List.map_cons,
      List.sum_cons]
  · rw [paid (i :: invs), paid invs,
      List.filter_cons_of_neg (by simpa using hne)]

theorem totalReceivable_totalPaid_spec_witness :
    ({ invoice_id := "i1", customer_id := "c1", amount := 8850,
       paid_amount := some 5000,
       status := "partially_paid" } : AdminInvoice).status
      = "partially_paid"
    ∧ totalReceivable
        [{ invoice_id := "i1", customer_id := "c1", amount := 8850,
           paid_amount := some 5000, status := "partially_paid" },
         { invoice_id := "i2", customer_id := "c2", amount := 1000,
           paid_amount := none, status := "pending" }]
      = ((8850 : ℚ) - (5000 : ℚ)) + totalReceivable
          [{ invoice_id := "i2", customer_id := "c2", amount := 1000,
             paid_amount := none, status := "pending" }] :=
  ⟨rfl,
   (totalReceivable_totalPaid_spec
      [{ invoice_id := "i2", customer_id := "c2", amount := 1000,
         paid_amount := none, status := "pending" }]
      { invoice_id := "i1", customer_id := "c1", amount := 8850,
        paid_amount := some 5000, status := "partially_paid" } rfl).2.2.1⟩

/-- C1 (counterexample): the manual create-invoice form offers the freely
chosen status `overdue` among its options and the invoice-management page
renders that status with its own badge colour, yet the payment-state
status function never yields `overdue` — here checked at paid amounts 0,
50 and 100 against a total of 100.  So an invoice created through the
form with status `overdue` carries a status outside the pure function of
its payment state. -/
theorem invoiceStatusFreeChoice_cex :
    "overdue" ∈ createInvoiceStatusOptions
    ∧ getStatusColor "overdue" = "bg-red-100 text-red-700"
    ∧ recomputeStatus 0 100 ≠ "overdue"
    ∧ recomputeStatus 50 100 ≠ "overdue"
    ∧ recomputeStatus 100 100 ≠ "overdue" := by
  refine ⟨by decide, by decide, ?_, ?_, ?_⟩ <;> decide

/-- C1 (amended): for backend-managed payment state (nonnegative paid
amount, positive total) the recomputed status is the stated pure function
of `paid_amount` vs `total_amount` — `paid` iff paid ≥ total,
`partially_paid` iff 0 < paid < total, `pending` iff paid = 0; however,
invoices created through the manual create-invoice form carry a freely
chosen status among pending/paid/overdue, so not every invoice's status
is this function of its payment state. -/
theorem recomputeStatus_pure (paid total : ℚ) (hp : 0 ≤ paid)
    (ht : 0 < total) :
    ((recomputeStatus paid total = "paid") ↔ total ≤ paid)
    ∧ ((recomputeStatus paid total = "partially_paid")
        ↔ 0 < paid ∧ paid < total)
    ∧ ((recomputeStatus paid total = "pending") ↔ paid = 0) := by
  unfold recomputeStatus
  rcases le_or_lt total paid with h1 | h1
  · rw [if_pos h1]
    refine ⟨⟨fun _ => h1, fun _ => rfl⟩,
      ⟨fun h => absurd h (by decide), ?_⟩,
      ⟨fun h => absurd h (by decide), ?_⟩⟩
    · rintro ⟨-, hlt⟩
      exact absurd h1 (not_le.mpr hlt)
    · intro h0
      exact absurd ht (not_lt.mpr (h0 ▸ h1))
  · rw [if_neg (not_le.mpr h1)]
    rcases lt_or_eq_of_le hp with h2 | h2
    · rw [if_pos h2]
      exact ⟨⟨fun h => absurd h (by decide),
              fun hle => absurd h1 (not_lt.mpr hle)⟩,
             ⟨fun _ => ⟨h2, h1⟩, fun _ => rfl⟩,
             ⟨fun h => absurd h (by decide),
              fun h0 => absurd h2 (by rw [h0]; exact lt_irrefl 0)⟩⟩
    · rw [if_neg (by rw [← h2]; exact lt_irrefl 0)]
      exact ⟨⟨fun h => absurd h (by decide),
              fun hle => absurd h1 (not_lt.mpr hle)⟩,
             ⟨fun h => absurd h (by decide),
              fun hc => absurd hc.1 (by rw [← h2]; exact lt_irrefl 0)⟩,
             ⟨fun _ => h2.symm, fun _ => rfl⟩⟩

theorem recomputeStatus_pure_witness :
    (0 : ℚ) ≤ 5000 ∧ (0 : ℚ) < 8850
    ∧ ((recomputeStatus 5000 8850 = "partially_paid")
        ↔ (0 : ℚ) < 5000 ∧ (5000 : ℚ) < 8850) :=
  ⟨by norm_num, by norm_num,
   (recomputeStatus_pure 5000 8850 (by norm_num) (by norm_num)).2.1⟩

/-- C3: the overdue classifier maps whole days overdue to exactly one
action — [3,7) reminder email, [7,15) final reminder, [15,30) suspend,
≥ 30 shutdown, below 3 none; in particular 20 days gives
suspend_account, 35 days shutdown_account, 2 days no action.
`checkPendingInvoices` applies this to every non-paid invoice and skips
paid ones. -/
theorem classifyOverdue_spec (d : ℤ) :
    (classifyOverdue d = some .send_reminder_email ↔ 3 ≤ d ∧ d < 7)
    ∧ (classifyOverdue d = some .send_final_reminder ↔ 7 ≤ d ∧ d < 15)
    ∧ (classifyOverdue d = some .suspend_account ↔ 15 ≤ d ∧ d < 30)
    ∧ (classifyOverdue d = some .shutdown_account ↔ 30 ≤ d)
    ∧ (classifyOverdue d = none ↔ d < 3)
    ∧ classifyOverdue 20 = some .suspend_account
    ∧ classifyOverdue 35 = some .shutdown_account
    ∧ classifyOverdue 2 = none
    ∧ (∀ (inv : Invoice) (due now : ℤ) (a : ReminderAction),
        inv.status ≠ "paid" → classifyOverdue (now - due) = some a →
        checkPendingInvoices now [(inv, due)]
          = [{ invoice_id := inv.invoice_id, days_overdue := now - due,
               action := a }])
    ∧ ∀ (inv : Invoice) (due now : ℤ), inv.status = "paid" →
        checkPendingInvoices now [(inv, due)] = [] := by
  refine ⟨?_, ?_, ?_, ?_, ?_, by decide, by decide, by decide, ?_, ?_⟩
  · unfold classifyOverdue
    split_ifs with h1 h2 h3 h4 <;> simp_all <;> omega
  · unfold classifyOverdue
    split_ifs with h1 h2 h3 h4 <;> simp_all <;> omega
  · unfold classifyOverdue
    split_ifs with h1 h2 h3 h4 <;> simp_all <;> omega
  · unfold classifyOverdue
    split_ifs with h1 h2 h3 h4 <;> simp_all <;> omega
  · unfold classifyOverdue
    split_ifs with h1 h2 h3 h4 <;> simp_all <;> omega
  · intro inv due now a hst hcl
    simp [checkPendingInvoices, hst, hcl]
  · intro inv due now hst
    simp [checkPendingInvoices, hst]

theorem classifyOverdue_spec_witness :
    checkPendingInvoices 40
      [({ invoice_id := "i1", customer_id := "c1", amount := 8850,
          subtotal := 7500, tax_amount := 1350, status := "pending",
          paid_amount := 0, payments := [], year := 2025,
          month := 1 }, 20)]
    = [{ invoice_id := "i1", days_overdue := 40 - 20,
         action := .suspend_account }] :=
  (classifyOverdue_spec 20).2.2.2.2.2.2.2.2.1
    { invoice_id := "i1", customer_id := "c1", amount := 8850,
      subtotal := 7500, tax_amount := 1350, status := "pending",
      paid_amount := 0, payments := [], year := 2025, month := 1 }
    20 40 .suspend_account (by decide) (by decide)

/-- A sample generated invoice: the documented example of usage
{orders: 1500} at rate {orders: 5.0} with no fixed fees. -/
def sampleInvoice : Invoice :=
  { invoice_id := "inv_cust", customer_id := "cust", amount := 8850,
    subtotal := 7500, tax_amount := 1350, status := "pending",
    paid_amount := 0, payments := [], year := 2025, month := 1 }

/-- The documented example generation, evaluated against the calculator. -/
lemma sampleInvoice_generated :
    generateMonthlyInvoice [("orders", 5)] [("orders", 1500)] [] "cust"
      2025 1 = .ok sampleInvoice := by
  have hv2 : variableLines [("orders", (5 : ℚ))] [("orders", 1500)]
      = .ok [{ service := "orders", type := "variable", quantity := 1500,
               rate := 5, amount := (5 : ℚ) * (1500 : Nat) }] := rfl
  simp only [generateMonthlyInvoice, hv2, fixedLines, List.map_nil,
    List.append_nil, List.map_cons, List.sum_cons, List.sum_nil, taxRate,
    sampleInvoice, Except.ok.injEq, Invoice.mk.injEq]
  norm_num
  rfl

/-- C2: every generated invoice satisfies tax = subtotal × 18 % computed
on the pre-tax line amounts and total = subtotal + tax; generating for
usage {orders: 1500} at rate {orders: 5.0} with no fixed fees yields
subtotal 7500, tax 1350, total 8850. -/
theorem generateMonthlyInvoice_tax (rc : List (String × ℚ))
    (us : List (String × Nat)) (ff : List (String × ℚ)) (cid : String)
    (y m : Nat) (inv : Invoice)
    (h : generateMonthlyInvoice rc us ff cid y m = .ok inv) :
    inv.tax_amount = inv.subtotal * (18 / 100)
    ∧ inv.amount = inv.subtotal + inv.tax_amount
    ∧ generateMonthlyInvoice [("orders", 5)] [("orders", 1500)] []
        "cust" 2025 1 = .ok sampleInvoice
    ∧ sampleInvoice.subtotal = 7500 ∧ sampleInvoice.tax_amount = 1350
    ∧ sampleInvoice.amount = 8850 := by
  cases hv : variableLines rc us with
  | error e => simp [generateMonthlyInvoice, hv] at h
  | ok v =>
      simp only [generateMonthlyInvoice, hv] at h
      rw [Except.ok.injEq] at h
      subst h
      exact ⟨rfl, rfl, sampleInvoice_generated, rfl, rfl, rfl⟩

theorem generateMonthlyInvoice_tax_witness :
    sampleInvoice.tax_amount = sampleInvoice.subtotal * (18 / 100) :=
  (generateMonthlyInvoice_tax [("orders", 5)] [("orders", 1500)] []
    "cust" 2025 1 sampleInvoice sampleInvoice_generated).1

/-- A sample pending invoice used to exercise the payment ledger. -/
def testInvoice : Invoice :=
  { invoice_id := "inv_1", customer_id := "c1", amount := 8850,
    subtotal := 7500, tax_amount := 1350, status := "pending",
    paid_amount := 0, payments := [], year := 2025, month := 1 }

/-- A sample active customer. -/
def testCustomer : Customer :=
  { customer_id := "c1", account_status := "active" }

/-- C4: recordPayment rejects a non-positive amount with
InvalidAmountError, returning the invoice and customer untouched
(no payment appended, paid_amount and statuses unmodified); any positive
amount appends exactly one payment record to the history and increases
paid_amount by that amount. -/
theorem recordPayment_spec (inv : Invoice) (cust : Customer) (amount : ℚ)
    (method reference notes : String) :
    (amount ≤ 0 →
      recordPayment inv cust amount method reference notes
        = ((inv, cust), some .InvalidAmountError))
    ∧ (0 < amount →
      (recordPayment inv cust amount method reference notes).2 = none
      ∧ ((recordPayment inv cust amount method reference
            notes).1.1).payments.length = inv.payments.length + 1
      ∧ ((recordPayment inv cust amount method reference
            notes).1.1).paid_amount = inv.paid_amount + amount) := by
  constructor
  · intro hle
    rw [recordPayment, if_pos hle]
  · intro hpos
    simp only [recordPayment, if_neg (not_le.mpr hpos)]
    exact ⟨trivial, by simp, trivial⟩

theorem recordPayment_spec_witness :
    recordPayment testInvoice testCustomer (-100) "bank_transfer" "TXN1" ""
      = ((testInvoice, testCustomer), some .InvalidAmountError) :=
  (recordPayment_spec testInvoice testCustomer (-100) "bank_transfer"
    "TXN1" "").1 (by norm_num)

/-- C5: a recorded payment that makes the invoice fully paid transitions
a suspended customer's account_status to active (auto-reactivation),
while a shutdown customer's account_status is never changed by a
payment. -/
theorem recordPayment_reactivation (inv : Invoice) (cust : Customer)
    (amount : ℚ) (method reference notes : String) :
    (cust.account_status = "suspended" → 0 < amount →
      inv.amount ≤ inv.paid_amount + amount →
      ((recordPayment inv cust amount method reference
          notes).1.2).account_status = "active")
    ∧ (cust.account_status = "shutdown" →
      ((recordPayment inv cust amount method reference
          notes).1.2).account_status = "shutdown") := by
  constructor
  · intro hs hpos hfull
    have hstatus :
        recomputeStatus (inv.paid_amount + amount) inv.amount = "paid" := by
      rw [recomputeStatus, if_pos hfull]
    simp only [recordPayment, if_neg (not_le.mpr hpos)]
    rw [if_pos ⟨hs, hstatus⟩]
  · intro hs
    by_cases hle : amount ≤ 0
    · rw [recordPayment, if_pos hle]
      exact hs
    · simp only [recordPayment, if_neg hle]
      rw [if_neg (fun hc => absurd (hs.symm.trans hc.1) (by decide))]
      exact hs

/-- A sample suspended customer. -/
def suspendedCustomer : Customer :=
  { customer_id := "c1", account_status := "suspended" }

/-- A sample shutdown customer. -/
def shutdownCustomer : Customer :=
  { customer_id := "c2", account_status := "shutdown" }

theorem recordPayment_reactivation_witness :
    ((recordPayment testInvoice suspendedCustomer 8850 "bank_transfer"
        "TXN2" "").1.2).account_status = "active"
    ∧ ((recordPayment testInvoice shutdownCustomer 8850 "bank_transfer"
        "TXN3" "").1.2).account_status = "shutdown" :=
  ⟨(recordPayment_reactivation testInvoice suspendedCustomer 8850
      "bank_transfer" "TXN2" "").1 rfl (by norm_num)
      (by norm_num [testInvoice]),
   (recordPayment_reactivation testInvoice shutdownCustomer 8850
      "bank_transfer" "TXN3" "").2 rfl⟩

/-- The (customer, year, month) identity fields of a generated invoice
come from the request. -/
lemma generateMonthlyInvoice_fields (rc : List (String × ℚ))
    (us : List (String × Nat)) (ff : List (String × ℚ)) (cid : String)
    (y m : Nat) (inv : Invoice)
    (h : generateMonthlyInvoice rc us ff cid y m = .ok inv) :
    inv.customer_id = cid ∧ inv.year = y ∧ inv.month = m := by
  cases hv : variableLines rc us with
  | error e => simp [generateMonthlyInvoice, hv] at h
  | ok v =>
      simp only [generateMonthlyInvoice, hv] at h
      rw [Except.ok.injEq] at h
      subst h
      exact ⟨rfl, rfl, rfl⟩

/-- One store-level generation step preserves the at-most-one-invoice-
per-period invariant. -/
lemma generateStore_preserves (invs : List Invoice) (req : GenRequest)
    (h : atMostOnePerPeriod invs) :
    atMostOnePerPeriod (generateMonthlyInvoiceStore invs req).1 := by
  rw [generateMonthlyInvoiceStore]
  by_cases hd : hasInvoiceFor invs req.cid req.year req.month = true
  · rw [if_pos hd]
    exact h
  · rw [if_neg hd]
    cases hg : generateMonthlyInvoice req.rateCard req.usage req.fixedFees
        req.cid req.year req.month with
    | error e => exact h
    | ok inv =>
        obtain ⟨hc, hy, hm⟩ :=
          generateMonthlyInvoice_fields _ _ _ _ _ _ _ hg
        show atMostOnePerPeriod (invs ++ [inv])
        rw [atMostOnePerPeriod, List.pairwise_append]
        refine ⟨h, List.pairwise_singleton _ _, ?_⟩
        intro a ha b hb
        rw [List.mem_singleton] at hb
        subst hb
        rintro ⟨h1, h2, h3⟩
        apply hd
        rw [hasInvoiceFor, List.any_eq_true]
        exact ⟨a, ha, by
          simp only [decide_eq_true_eq]
          exact ⟨h1.trans hc, h2.trans hy, h3.trans hm⟩⟩

/-- Replaying a sequence of generation requests preserves the
at-most-one-invoice-per-period invariant. -/
lemma runGenerates_preserves :
    ∀ (reqs : List GenRequest) (invs : List Invoice),
      atMostOnePerPeriod invs → atMostOnePerPeriod (runGenerates invs reqs)
  | [], _, h => h
  | r :: rs, invs, h =>
      runGenerates_preserves rs _ (generateStore_preserves invs r h)

/-- C6: replaying any sequence of generate-monthly-invoice calls never
double-bills a (customer, period): starting from a store with at most
one invoice per (customer, year, month) the invariant is preserved, and
a generate call for an already-invoiced period is rejected with
DuplicateInvoiceError leaving the store unchanged — duplication never
occurs silently. -/
theorem generateMonthlyInvoice_no_double_billing (invs : List Invoice)
    (reqs : List GenRequest) (h : atMostOnePerPeriod invs) :
    atMostOnePerPeriod (runGenerates invs reqs)
    ∧ ∀ req : GenRequest,
        hasInvoiceFor invs req.cid req.year req.month = true →
        generateMonthlyInvoiceStore invs req
          = (invs, some .DuplicateInvoiceError) := by
  refine ⟨runGenerates_preserves reqs invs h, ?_⟩
  intro req hd
  rw [generateMonthlyInvoiceStore, if_pos hd]

/-- A sample generation request, replayed twice against an empty store. -/
def testRequest : GenRequest :=
  { rateCard := [("orders", 5)], usage := [("orders", 1500)],
    fixedFees := [], cid := "cust", year := 2025, month := 1 }

theorem generateMonthlyInvoice_no_double_billing_witness :
    atMostOnePerPeriod (runGenerates [] [testRequest, testRequest]) :=
  (generateMonthlyInvoice_no_double_billing [] [testRequest, testRequest]
    List.Pairwise.nil).1

end FinancePanel
